import Mathlib

/- Formal model of the vetfile-landing backend: the upload/analysis lifecycle
tracker and form builder implemented in
src/backend/src/controllers/documentController.js, with the provider fallback
payload from src/services/openaiService.js.  JavaScript objects become Lean
structures, the two in-memory `Map`s become functions `Nat → Option _`, uuid
generation becomes a fresh-id counter, and `new Date()` becomes a logical
clock.  Fields that may be absent or null in the dynamic JSON payloads are
modelled as `Option`; the JavaScript `x || d` defaulting idiom is modelled by
truthiness-aware helpers. -/

namespace VetFile

/- JavaScript `x || d` for a possibly-absent string: undefined, null and the
empty string are falsy. -/
def jsOrStr (v : Option String) (d : String) : String :=
  match v with
  | none => d
  | some s => if s = "" then d else s

/- JavaScript `x || d` for a possibly-absent boolean: undefined, null and
`false` are falsy. -/
def jsOrBool (v : Option Bool) (d : Bool) : Bool :=
  match v with
  | none => d
  | some b => if b then b else d

/- JavaScript `x || d` for a possibly-absent number: undefined, null and `0`
are falsy. -/
def jsOrNat (v : Option Nat) (d : Nat) : Nat :=
  match v with
  | none => d
  | some n => if n = 0 then d else n

/- `Map.set` on a map modelled as a lookup function. -/
def mset (m : Nat → Option α) (k : Nat) (v : α) : Nat → Option α :=
  fun j => if j = k then some v else m j

/- `Array.prototype.map` with the element index, starting at `i`
(used for the `(claim, index) =>` callback of `generateForm` and for
assigning consecutive fresh ids). -/
def mapIdxAux (f : Nat → α → β) : Nat → List α → List β
  | _, [] => []
  | i, a :: as => f i a :: mapIdxAux f (i + 1) as

def mapIdxF (f : Nat → α → β) (l : List α) : List β :=
  mapIdxAux f 0 l

/-! Data model -/

/- A file descriptor as delivered by multer in `req.files`. -/
structure MulterFile where
  originalname : String
  filename : String
  path : String
  size : Nat
  mimetype : String
deriving DecidableEq

/- One entry of `upload.files` as built by `uploadDocuments`. -/
structure FileRecord where
  id : Nat
  originalName : String
  filename : String
  path : String
  size : Nat
  mimetype : String
  documentType : String
  uploadedAt : Nat
deriving DecidableEq

/- The client-facing projection of a `FileRecord` returned by the upload
endpoint: no `filename`, `path` or `mimetype`. -/
structure FileView where
  id : Nat
  originalName : String
  size : Nat
  documentType : String
deriving DecidableEq

/- `upload.status` string values. -/
inductive Status where
  | uploaded
  | analyzing
  | analyzed
  | failed
deriving DecidableEq

/- An Upload record stored in the `uploads` map.  `analysisId`, `error` and
`analyzedAt` are absent on creation. -/
structure Upload where
  id : Nat
  files : List FileRecord
  status : Status
  analysisId : Option Nat
  error : Option String
  uploadedAt : Nat
  analyzedAt : Option Nat
deriving DecidableEq

/- `veteranInfo` section of an analysis payload; every field may be null or
missing in provider output. -/
structure VeteranInfo where
  name : Option String
  serviceNumber : Option String
  branch : Option String
  serviceStartDate : Option String
  serviceEndDate : Option String
  rank : Option String
  dischargeType : Option String
deriving DecidableEq

/- One element of `potentialClaims`. -/
structure ClaimCandidate where
  condition : String
  description : Option String
  evidence : Option (List String)
  cfrReference : Option String
  confidenceScore : Option Nat
  category : Option String
  isPresumed : Option Bool
  isPrimary : Option Bool
deriving DecidableEq

/- `serviceInfo` section of an analysis payload. -/
structure ServiceInfo where
  deployments : Option (List String)
  mos : Option (List String)
  combatExperience : Option Bool
  awardsDecorations : Option (List String)
  incidents : Option (List String)
deriving DecidableEq

/- `recommendations` section of an analysis payload. -/
structure Recommendations where
  additionalEvidence : List String
  priorityClaims : List String
deriving DecidableEq

/- A structured analysis payload (mock, provider or fallback). -/
structure Analysis where
  veteranInfo : VeteranInfo
  potentialClaims : List ClaimCandidate
  serviceInfo : Option ServiceInfo
  recommendations : Option Recommendations
deriving DecidableEq

/- An entry of the `analyses` map. -/
structure AnalysisRecord where
  id : Nat
  uploadId : Nat
  analysis : Analysis
  createdAt : Nat
deriving DecidableEq

/- `formData.veteran.address`. -/
structure Address where
  street : String
  city : String
  state : String
  zipCode : String
deriving DecidableEq, Inhabited

/- `formData.veteran`. -/
structure VeteranOut where
  name : String
  serviceNumber : String
  ssn : String
  dob : String
  branch : String
  serviceStartDate : String
  serviceEndDate : String
  rank : String
  dischargeType : String
  address : Address
  phone : String
  email : String
deriving DecidableEq, Inhabited

/- One entry of `formData.disabilities`. -/
structure Disability where
  id : Nat
  sequence : Nat
  condition : String
  description : String
  evidence : List String
  cfrReference : String
  confidenceScore : Nat
  category : String
  isPrimary : Bool
  isPresumed : Bool
  dateOfOnset : String
  relatedMilitaryService : Bool
deriving DecidableEq, Inhabited

/- `formData.serviceDetails`. -/
structure ServiceDetails where
  deployments : List String
  mos : List String
  combatExperience : Bool
  awardsDecorations : List String
  incidents : List String
deriving DecidableEq, Inhabited

/- The `formData` object built by `generateForm`. -/
structure FormData where
  formId : Nat
  formType : String
  generatedDate : Nat
  veteran : VeteranOut
  disabilities : List Disability
  serviceDetails : ServiceDetails
deriving DecidableEq, Inhabited

/- The JSON body shapes the controller can answer with. -/
inductive Response where
  | uploadOk (uploadId : Nat) (files : List FileView)
  | analyzeOk (uploadId : Nat) (analysisId : Nat) (analysis : Analysis)
  | getOk (uploadId : Nat) (analysisId : Nat) (status : Status)
      (analysis : Analysis) (createdAt : Nat)
  | formOk (formData : FormData)
  | badRequest (error : String)
  | notReady (error : String) (status : Status)
  | notFound (error : String)
  | serverError (error : String) (message : String)
deriving DecidableEq

/- The module-level mutable state: the two `Map`s, plus a counter standing in
for uuidv4 and a logical clock standing in for `Date`. -/
structure ServerState where
  uploads : Nat → Option Upload
  analyses : Nat → Option AnalysisRecord
  nextId : Nat
  now : Nat

def initState : ServerState :=
  { uploads := fun _ => none, analyses := fun _ => none, nextId := 0, now := 0 }

/-! Fixed payloads from the source -/

/- `getMockAnalysis()` from documentController.js. -/
def getMockAnalysis : Analysis :=
  { veteranInfo :=
      { name := some "John A. Smith"
        serviceNumber := some "123-45-6789"
        branch := some "U.S. Army"
        serviceStartDate := some "2008-06-15"
        serviceEndDate := some "2016-08-22"
        rank := some "E-5/Sergeant"
        dischargeType := some "Honorable" }
    potentialClaims :=
      [ { condition := "Post-Traumatic Stress Disorder (PTSD)"
          description := some "Combat-related PTSD with symptoms including nightmares, hypervigilance, and anxiety"
          evidence := some [ "Combat deployment to Afghanistan",
            "Combat Infantry Badge indicates combat experience",
            "Medical record mentions anxiety symptoms" ]
          cfrReference := some "38 CFR 4.130, DC 9411"
          confidenceScore := some 85
          category := some "mental"
          isPresumed := some false
          isPrimary := some true },
        { condition := "Tinnitus"
          description := some "Ringing in the ears due to combat noise exposure"
          evidence := some [ "Infantry MOS with exposure to weapons fire",
            "Combat deployment with likely noise exposure" ]
          cfrReference := some "38 CFR 4.87, DC 6260"
          confidenceScore := some 80
          category := some "physical"
          isPresumed := some false
          isPrimary := some true },
        { condition := "Lumbar Strain"
          description := some "Chronic lower back pain due to carrying heavy equipment"
          evidence := some [ "Infantry MOS requiring carrying heavy loads",
            "Multiple deployments with combat gear" ]
          cfrReference := some "38 CFR 4.71a, DC 5237"
          confidenceScore := some 70
          category := some "physical"
          isPresumed := some false
          isPrimary := some true } ]
    serviceInfo := some
      { deployments := some [ "Afghanistan (2012-2013)", "Iraq (2009-2010)" ]
        mos := some [ "11B Infantry" ]
        combatExperience := some true
        awardsDecorations := some [ "Combat Infantry Badge", "Army Commendation Medal" ]
        incidents := some [ "Engaged in firefight on 2013-03-15" ] }
    recommendations := some
      { additionalEvidence :=
          [ "Consider obtaining buddy statements from fellow soldiers",
            "Request complete medical records from VA",
            "Schedule VA C&P exam for PTSD" ]
        priorityClaims := [ "Post-Traumatic Stress Disorder (PTSD)", "Tinnitus" ] } }

/- `OpenAIService.generateFallbackAnalysis()` from openaiService.js: the
bundled fallback payload substituted when the provider call fails. -/
def generateFallbackAnalysis : Analysis :=
  { veteranInfo :=
      { name := some "Unable to extract"
        serviceNumber := some "Unable to extract"
        branch := some "Unable to extract"
        serviceStartDate := none
        serviceEndDate := none
        rank := some "Unable to extract"
        dischargeType := some "Unable to extract" }
    potentialClaims :=
      [ { condition := "Analysis Error"
          description := some "There was an error analyzing your documents. This could be due to technical issues or document quality."
          evidence := some [ "Error processing document content" ]
          cfrReference := none
          confidenceScore := some 0
          category := some "other"
          isPresumed := some false
          isPrimary := some true } ]
    serviceInfo := some
      { deployments := some []
        mos := some []
        combatExperience := some false
        awardsDecorations := some []
        incidents := some [] }
    recommendations := some
      { additionalEvidence :=
          [ "Try uploading clearer copies of your documents",
            "Include both your DD214 and medical records if available" ]
        priorityClaims := [] } }

/-! Operations -/

/- Builds a stored `FileRecord` from one multer file descriptor:
`documentType: req.body.documentType || 'unknown'` is the single batch-level
field of the request body, applied to every file of the batch. -/
def mkFileRecord (documentType : Option String) (t : Nat) (id : Nat)
    (f : MulterFile) : FileRecord :=
  { id := id
    originalName := f.originalname
    filename := f.filename
    path := f.path
    size := f.size
    mimetype := f.mimetype
    documentType := jsOrStr documentType "unknown"
    uploadedAt := t }

/- The client-facing projection used in the upload response. -/
def fileView (f : FileRecord) : FileView :=
  { id := f.id, originalName := f.originalName, size := f.size,
    documentType := f.documentType }

/- `exports.uploadDocuments`.  The request carries the multer file array and
the optional `documentType` body field. -/
def uploadDocuments (st : ServerState) (files : List MulterFile)
    (documentType : Option String) : ServerState × Response :=
  if files.length = 0 then
    (st, Response.badRequest "No files uploaded")
  else
    let uploadId := st.nextId
    let t := st.now
    let frs := mapIdxAux (fun i f => mkFileRecord documentType t i f) (uploadId + 1) files
    let u : Upload :=
      { id := uploadId, files := frs, status := Status.uploaded,
        analysisId := none, error := none, uploadedAt := t, analyzedAt := none }
    ({ st with uploads := mset st.uploads uploadId u,
               nextId := uploadId + 1 + files.length, now := t + 1 },
     Response.uploadOk uploadId (frs.map fileView))

/- The synchronous prefix of `exports.analyzeDocuments` (lines 73-82): look
the Upload up and overwrite its status with `'analyzing'`. -/
def beginAnalysis (st : ServerState) (uploadId : Nat) : ServerState :=
  match st.uploads uploadId with
  | none => st
  | some upload =>
      { st with uploads := mset st.uploads uploadId { upload with status := Status.analyzing } }

/- Outcome of the text-extraction + provider steps of one analyze call:
the mock branch (`USE_MOCK_AI`), a provider call returning normally (either a
parsed payload or the error sentinel carrying the fallback), or an unexpected
exception thrown before the analysis is stored (e.g. inside the extractor). -/
inductive ProviderResult where
  | ok (analysis : Analysis)
  | err (message : String)
deriving DecidableEq

inductive AnalysisOutcome where
  | mock
  | provider (r : ProviderResult)
  | crash (message : String)
deriving DecidableEq

/- The analysis payload the handler ends up with, when it does not crash:
mock data, the provider payload, or `analysis.fallbackAnalysis` when the
provider returned its error sentinel (`if (analysis.error)`). -/
def envPayload : AnalysisOutcome → Option Analysis
  | AnalysisOutcome.mock => some getMockAnalysis
  | AnalysisOutcome.provider (ProviderResult.ok a) => some a
  | AnalysisOutcome.provider (ProviderResult.err _) => some generateFallbackAnalysis
  | AnalysisOutcome.crash _ => none

def crashMessage : AnalysisOutcome → String
  | AnalysisOutcome.crash m => m
  | _ => ""

/- `exports.analyzeDocuments`.  On an unknown uploadId: 404 without touching
state.  Otherwise the status is first overwritten with `'analyzing'`; a crash
is then caught by the handler, which re-reads the (analyzing) record, marks it
`'failed'` with the error message, and answers 500; on success a fresh
Analysis record is stored and the Upload is rebound to it. -/
def analyzeDocuments (st : ServerState) (uploadId : Nat)
    (env : AnalysisOutcome) : ServerState × Response :=
  match st.uploads uploadId with
  | none => (st, Response.notFound "Upload not found")
  | some upload =>
      let u1 : Upload := { upload with status := Status.analyzing }
      let st1 : ServerState := { st with uploads := mset st.uploads uploadId u1 }
      match envPayload env with
      | none =>
          -- catch block: `uploads.get(req.params.uploadId)` yields u1
          let msg := crashMessage env
          ({ st1 with uploads := mset st1.uploads uploadId
                        { u1 with status := Status.failed, error := some msg },
                      now := st.now + 1 },
           Response.serverError "Analysis failed" msg)
      | some analysis =>
          let analysisId := st.nextId
          let ar : AnalysisRecord :=
            { id := analysisId, uploadId := uploadId, analysis := analysis,
              createdAt := st.now }
          let u2 : Upload :=
            { u1 with status := Status.analyzed, analysisId := some analysisId,
                      analyzedAt := some st.now }
          ({ st1 with uploads := mset st1.uploads uploadId u2,
                      analyses := mset st.analyses analysisId ar,
                      nextId := analysisId + 1, now := st.now + 1 },
           Response.analyzeOk uploadId analysisId analysis)

/- `exports.getAnalysis`: a pure read, the state is returned untouched. -/
def getAnalysis (st : ServerState) (uploadId : Nat) : ServerState × Response :=
  match st.uploads uploadId with
  | none => (st, Response.notFound "Upload not found")
  | some upload =>
      match upload.analysisId with
      | none => (st, Response.notReady "Analysis not yet performed for this upload" upload.status)
      | some aid =>
          match st.analyses aid with
          | none => (st, Response.notFound "Analysis not found")
          | some ar => (st, Response.getOk uploadId aid upload.status ar.analysis ar.createdAt)

/- One entry of `formData.disabilities` built from a selected claim. -/
def mkDisability (id : Nat) (index : Nat) (claim : ClaimCandidate) : Disability :=
  { id := id
    sequence := index + 1
    condition := claim.condition
    description := jsOrStr claim.description ""
    evidence := claim.evidence.getD []
    cfrReference := jsOrStr claim.cfrReference ""
    confidenceScore := jsOrNat claim.confidenceScore 0
    category := jsOrStr claim.category "other"
    isPrimary := jsOrBool claim.isPrimary true
    isPresumed := jsOrBool claim.isPresumed false
    dateOfOnset := ""
    relatedMilitaryService := true }

/- `formData.veteran` from `veteranInfo`. -/
def mkVeteranOut (v : VeteranInfo) : VeteranOut :=
  { name := jsOrStr v.name ""
    serviceNumber := jsOrStr v.serviceNumber ""
    ssn := ""
    dob := ""
    branch := jsOrStr v.branch ""
    serviceStartDate := jsOrStr v.serviceStartDate ""
    serviceEndDate := jsOrStr v.serviceEndDate ""
    rank := jsOrStr v.rank ""
    dischargeType := jsOrStr v.dischargeType ""
    address := { street := "", city := "", state := "", zipCode := "" }
    phone := ""
    email := "" }

/- `formData.serviceDetails` from `serviceInfo?` (optional chaining). -/
def mkServiceDetails (si : Option ServiceInfo) : ServiceDetails :=
  { deployments := (si.bind ServiceInfo.deployments).getD []
    mos := (si.bind ServiceInfo.mos).getD []
    combatExperience := jsOrBool (si.bind ServiceInfo.combatExperience) false
    awardsDecorations := (si.bind ServiceInfo.awardsDecorations).getD []
    incidents := (si.bind ServiceInfo.incidents).getD [] }

/- `exports.generateForm`.  The empty-selection test is decided before any
Upload/Analysis lookup; the stored maps are never mutated (only the id
counter advances for the generated uuids). -/
def generateForm (st : ServerState) (uploadId : Nat)
    (selectedClaims : List String) : ServerState × Response :=
  if selectedClaims.length = 0 then
    (st, Response.badRequest "No claims selected")
  else
    match st.uploads uploadId with
    | none => (st, Response.notFound "Upload or analysis not found")
    | some upload =>
        match upload.analysisId with
        | none => (st, Response.notFound "Upload or analysis not found")
        | some aid =>
            match st.analyses aid with
            | none => (st, Response.notFound "Analysis not found")
            | some ar =>
                let a := ar.analysis
                let selectedClaimData :=
                  a.potentialClaims.filter (fun claim => selectedClaims.contains claim.condition)
                let formId := st.nextId
                let formData : FormData :=
                  { formId := formId
                    formType := "VA-21-526EZ"
                    generatedDate := st.now
                    veteran := mkVeteranOut a.veteranInfo
                    disabilities :=
                      mapIdxAux (fun i claim => mkDisability (formId + 1 + i) i claim)
                        0 selectedClaimData
                    serviceDetails := mkServiceDetails a.serviceInfo }
                ({ st with nextId := formId + 1 + selectedClaimData.length, now := st.now + 1 },
                 Response.formOk formData)

/-! Operation sequences and reachable states -/

/- One client-visible operation against the tracker. -/
inductive Op where
  | create (files : List MulterFile) (documentType : Option String)
  | beginAnalyze (uploadId : Nat)
  | analyze (uploadId : Nat) (env : AnalysisOutcome)
  | fetch (uploadId : Nat)
  | form (uploadId : Nat) (selectedClaims : List String)

/- The state transition of one operation. -/
def step (st : ServerState) : Op → ServerState
  | Op.create files dt => (uploadDocuments st files dt).1
  | Op.beginAnalyze uploadId => beginAnalysis st uploadId
  | Op.analyze uploadId env => (analyzeDocuments st uploadId env).1
  | Op.fetch uploadId => (getAnalysis st uploadId).1
  | Op.form uploadId sel => (generateForm st uploadId sel).1

/- Run a sequence of operations from a start state. -/
def applyOps (st : ServerState) : List Op → ServerState
  | [] => st
  | op :: ops => applyOps (step st op) ops

/- Extract the payload of a success response of the form endpoint. -/
def Response.formPayload : Response → Option FormData
  | Response.formOk fd => some fd
  | _ => none

/- Whether an operation is a begin-analysis or run-analysis on the given
upload id. -/
def startsAnalysisOn (op : Op) (id : Nat) : Bool :=
  match op with
  | Op.beginAnalyze j => j == id
  | Op.analyze j _ => j == id
  | _ => false

/-! Concrete fixtures, used to exercise the theorems on closed inputs -/

def sampleFile : MulterFile :=
  { originalname := "dd214.pdf", filename := "ab12.pdf", path := "uploads/ab12.pdf",
    size := 5, mimetype := "application/pdf" }

def sampleFileB : MulterFile :=
  { originalname := "medical.pdf", filename := "cd34.pdf", path := "uploads/cd34.pdf",
    size := 7, mimetype := "application/pdf" }

def sampleClaimA : ClaimCandidate :=
  { condition := "Tinnitus", description := some "Ringing in the ears",
    evidence := some ["noise exposure"], cfrReference := some "38 CFR 4.87",
    confidenceScore := some 80, category := some "physical",
    isPresumed := some false, isPrimary := some true }

def sampleClaimB : ClaimCandidate :=
  { condition := "Migraine", description := none, evidence := none,
    cfrReference := none, confidenceScore := none, category := none,
    isPresumed := none, isPrimary := some false }

def sampleAnalysis : Analysis :=
  { veteranInfo :=
      { name := some "John A. Smith", serviceNumber := none, branch := some "U.S. Army",
        serviceStartDate := none, serviceEndDate := none, rank := none,
        dischargeType := none },
    potentialClaims := [sampleClaimA, sampleClaimB],
    serviceInfo := none, recommendations := none }

def createdOps : List Op := [Op.create [sampleFile] (some "DD214")]

def createdSt : ServerState := applyOps initState createdOps

def sampleFileRecord : FileRecord :=
  { id := 1, originalName := "dd214.pdf", filename := "ab12.pdf",
    path := "uploads/ab12.pdf", size := 5, mimetype := "application/pdf",
    documentType := "DD214", uploadedAt := 0 }

def createdUpload : Upload :=
  { id := 0, files := [sampleFileRecord], status := Status.uploaded,
    analysisId := none, error := none, uploadedAt := 0, analyzedAt := none }

def analyzedOps : List Op :=
  createdOps ++ [Op.analyze 0 (AnalysisOutcome.provider (ProviderResult.ok sampleAnalysis))]

def analyzedSt : ServerState := applyOps initState analyzedOps

def analyzedUpload : Upload :=
  { id := 0, files := [sampleFileRecord], status := Status.analyzed,
    analysisId := some 2, error := none, uploadedAt := 0, analyzedAt := some 1 }

def sampleAnalysisRecord : AnalysisRecord :=
  { id := 2, uploadId := 0, analysis := sampleAnalysis, createdAt := 1 }

/- A trace where a crashing third analyze call follows a successful one. -/
def c1Ops : List Op := analyzedOps ++ [Op.analyze 0 (AnalysisOutcome.crash "boom")]

/- The Upload record stored after running `c1Ops`. -/
def c1Upload : Upload :=
  { id := 0, files := [sampleFileRecord], status := Status.failed,
    analysisId := some 2, error := some "boom", uploadedAt := 0, analyzedAt := some 1 }

/- The form payload produced for the stored claim whose `isPrimary` is
`false` (`sampleClaimB`). -/
def c10fd : FormData :=
  ((generateForm analyzedSt 0 ["Migraine"]).2.formPayload).getD default

/- A provider environment answering normally with `sampleAnalysis`. -/
def okEnv : AnalysisOutcome := AnalysisOutcome.provider (ProviderResult.ok sampleAnalysis)

/-! Basic lemmas about the map and indexing helpers -/

theorem mset_lookup_same (m : Nat → Option α) (k : Nat) (v : α) :
    mset m k v k = some v := by
  simp [mset]

theorem mset_lookup_ne (m : Nat → Option α) (k j : Nat) (v : α) (h : j ≠ k) :
    mset m k v j = m j := by
  simp [mset, h]

theorem length_mapIdxAux (f : Nat → α → β) (i : Nat) (l : List α) :
    (mapIdxAux f i l).length = l.length := by
  induction l generalizing i with
  | nil => rfl
  | cons a as ih => simp [mapIdxAux, ih]

theorem mem_mapIdxAux {f : Nat → α → β} {i : Nat} {l : List α} {b : β}
    (h : b ∈ mapIdxAux f i l) : ∃ j a, a ∈ l ∧ b = f j a := by
  induction l generalizing i with
  | nil => simp [mapIdxAux] at h
  | cons x xs ih =>
      simp only [mapIdxAux, List.mem_cons] at h
      rcases h with h | h
      · exact ⟨i, x, List.mem_cons_self x xs, h⟩
      · rcases ih h with ⟨j, a, ha, hb⟩
        exact ⟨j, a, List.mem_cons_of_mem x ha, hb⟩

theorem map_mapIdxAux (f : Nat → α → β) (g : β → γ) (h : α → γ)
    (hg : ∀ i a, g (f i a) = h a) (i : Nat) (l : List α) :
    (mapIdxAux f i l).map g = l.map h := by
  induction l generalizing i with
  | nil => rfl
  | cons x xs ih => simp [mapIdxAux, hg, ih]

theorem map_mapIdxAux_range (f : Nat → α → β) (g : β → Nat)
    (hg : ∀ i a, g (f i a) = i + 1) (i : Nat) (l : List α) :
    (mapIdxAux f i l).map g = List.range' (i + 1) l.length := by
  induction l generalizing i with
  | nil => rfl
  | cons x xs ih => simp [mapIdxAux, hg, ih, List.range'_succ]

theorem jsOrBool_true (v : Option Bool) : jsOrBool v true = true := by
  cases v with
  | none => rfl
  | some b => cases b <;> rfl

theorem createdSt_uploads_zero : createdSt.uploads 0 = some createdUpload := by decide

theorem analyzedSt_uploads_zero : analyzedSt.uploads 0 = some analyzedUpload := by decide

theorem analyzedSt_analyses_two : analyzedSt.analyses 2 = some sampleAnalysisRecord := by decide

/-! State-shape lemmas for the read-only endpoints -/

theorem getAnalysis_state (st : ServerState) (uploadId : Nat) :
    (getAnalysis st uploadId).1 = st := by
  unfold getAnalysis
  split
  · rfl
  · split
    · rfl
    · split <;> rfl

theorem generateForm_uploads (st : ServerState) (uploadId : Nat) (sel : List String) :
    (generateForm st uploadId sel).1.uploads = st.uploads := by
  unfold generateForm
  split
  · rfl
  · split
    · rfl
    · split
      · rfl
      · split <;> rfl

theorem generateForm_analyses (st : ServerState) (uploadId : Nat) (sel : List String) :
    (generateForm st uploadId sel).1.analyses = st.analyses := by
  unfold generateForm
  split
  · rfl
  · split
    · rfl
    · split
      · rfl
      · split <;> rfl

/-! Claim theorems -/

/-- Claim C4: for every build_form call with an empty selected_conditions
list, the operation fails with the validation error, regardless of whether
the uploadId refers to an existing Upload, an Upload without an Analysis, or
no Upload at all — the empty-selection check is decided before any lookup,
and the state is untouched. -/
theorem c4_empty_selection_always_validation_error (st : ServerState) (uploadId : Nat) :
    generateForm st uploadId [] = (st, Response.badRequest "No claims selected") := rfl

/-- Claim C6: for every create_upload call with at least one file
descriptor, the operation never fails: it stores an Upload with status
`uploaded` whose files count equals the input count, and the client-facing
response lists only the `fileView` projection of each stored record
(id, originalName, size, documentType — no storage path). -/
theorem c6_create_upload_succeeds (st : ServerState) (files : List MulterFile)
    (dt : Option String) (h : files ≠ []) :
    ∃ u fvs,
      (uploadDocuments st files dt).2 = Response.uploadOk st.nextId fvs ∧
      (uploadDocuments st files dt).1.uploads st.nextId = some u ∧
      u.status = Status.uploaded ∧
      u.files.length = files.length ∧
      fvs = u.files.map fileView := by
  have hlen : ¬ files.length = 0 := by simpa using h
  unfold uploadDocuments
  rw [if_neg hlen]
  exact ⟨_, _, rfl, mset_lookup_same _ _ _, rfl, length_mapIdxAux _ _ _, rfl⟩

theorem c6_witness :
    ∃ u fvs,
      (uploadDocuments initState [sampleFile] (some "DD214")).2
        = Response.uploadOk initState.nextId fvs ∧
      (uploadDocuments initState [sampleFile] (some "DD214")).1.uploads initState.nextId
        = some u ∧
      u.status = Status.uploaded ∧
      u.files.length = [sampleFile].length ∧
      fvs = u.files.map fileView :=
  c6_create_upload_succeeds initState [sampleFile] (some "DD214") (by decide)

/-- Claim C2 (amended): `documentType` is a single batch-level body field,
not a per-file tag: every FileRecord of a created Upload carries the same
`jsOrStr documentType "unknown"` value, defaulting to "unknown" when the
field is absent or empty.  Two files of one batch can never receive distinct
documentType values. -/
theorem c2_single_batch_document_type (st : ServerState) (files : List MulterFile)
    (dt : Option String) (u : Upload) (h : files ≠ [])
    (hu : (uploadDocuments st files dt).1.uploads st.nextId = some u)
    (fr : FileRecord) (hfr : fr ∈ u.files) :
    fr.documentType = jsOrStr dt "unknown" := by
  have hlen : ¬ files.length = 0 := by simpa using h
  unfold uploadDocuments at hu
  rw [if_neg hlen] at hu
  simp only [mset] at hu
  split at hu
  · obtain rfl := Option.some.inj hu
    rcases mem_mapIdxAux hfr with ⟨j, a, ha, rfl⟩
    rfl
  · next hne => exact absurd trivial hne

/- The two files of a two-file batch with would-be distinct per-file tags
both end up with the single batch-level tag. -/
theorem c2_counterexample :
    ((uploadDocuments initState [sampleFile, sampleFileB] (some "DD214")).1.uploads 0).map
        (fun u => u.files.map FileRecord.documentType)
      = some ["DD214", "DD214"] := by decide

theorem c2_witness :
    sampleFileRecord.documentType = jsOrStr (some "DD214") "unknown" :=
  c2_single_batch_document_type initState [sampleFile] (some "DD214")
    createdUpload (by decide) (by decide) sampleFileRecord (by decide)

/-- Claim C10: every disability entry of a successfully generated form has
isPrimary = true, whatever the stored claim candidate's isPrimary flag was —
`claim.isPrimary || true` can never evaluate to false. -/
theorem c10_form_disabilities_always_primary (st : ServerState) (uploadId : Nat)
    (sel : List String) (fd : FormData)
    (h : (generateForm st uploadId sel).2 = Response.formOk fd)
    (d : Disability) (hd : d ∈ fd.disabilities) :
    d.isPrimary = true := by
  unfold generateForm at h
  split at h
  · exact absurd h (by simp)
  · split at h
    · exact absurd h (by simp)
    · split at h
      · exact absurd h (by simp)
      · split at h
        · exact absurd h (by simp)
        · simp only [Response.formOk.injEq] at h
          subst h
          rcases mem_mapIdxAux hd with ⟨j, a, ha, rfl⟩
          exact jsOrBool_true a.isPrimary

theorem c10_witness : (c10fd.disabilities.headD default).isPrimary = true :=
  c10_form_disabilities_always_primary analyzedSt 0 ["Migraine"] c10fd (by decide)
    (c10fd.disabilities.headD default) (by decide)

/- Full characterisation of a successful analyze call (any environment whose
payload is defined: mock, provider success, or provider error sentinel). -/
theorem analyzeDocuments_success (st : ServerState) (uploadId : Nat) (u : Upload)
    (env : AnalysisOutcome) (p : Analysis)
    (hu : st.uploads uploadId = some u) (he : envPayload env = some p) :
    analyzeDocuments st uploadId env =
      ({ uploads := mset (mset st.uploads uploadId { u with status := Status.analyzing })
            uploadId
            { u with status := Status.analyzed, analysisId := some st.nextId,
                     analyzedAt := some st.now },
         analyses := mset st.analyses st.nextId
            { id := st.nextId, uploadId := uploadId, analysis := p, createdAt := st.now },
         nextId := st.nextId + 1, now := st.now + 1 },
       Response.analyzeOk uploadId st.nextId p) := by
  unfold analyzeDocuments
  rw [hu, he]

/- Post-state of a successful analyze call, in lookup form. -/
theorem analyzeDocuments_success_post (st : ServerState) (uploadId : Nat) (u : Upload)
    (env : AnalysisOutcome) (p : Analysis)
    (hu : st.uploads uploadId = some u) (he : envPayload env = some p) :
    (analyzeDocuments st uploadId env).1.uploads uploadId
        = some { u with status := Status.analyzed, analysisId := some st.nextId,
                        analyzedAt := some st.now } ∧
    (analyzeDocuments st uploadId env).1.analyses st.nextId
        = some { id := st.nextId, uploadId := uploadId, analysis := p, createdAt := st.now } ∧
    (analyzeDocuments st uploadId env).1.nextId = st.nextId + 1 ∧
    (analyzeDocuments st uploadId env).1.now = st.now + 1 ∧
    (∀ k, k ≠ st.nextId → (analyzeDocuments st uploadId env).1.analyses k = st.analyses k) := by
  rw [analyzeDocuments_success st uploadId u env p hu he]
  refine ⟨mset_lookup_same _ _ _, mset_lookup_same _ _ _, rfl, rfl, ?_⟩
  intro k hk
  exact mset_lookup_ne _ _ _ _ hk

/-- Claim C3: for every run_analysis call on an existing Upload in which the
provider signals its error sentinel, the operation does not fail: the
bundled fallback payload is stored as the new Analysis, the Upload
transitions to status `analyzed`, and the caller receives the well-formed
fallback analysis payload, never a bare exception. -/
theorem c3_provider_error_uses_fallback (st : ServerState) (uploadId : Nat) (u : Upload)
    (msg : String) (hu : st.uploads uploadId = some u) :
    (analyzeDocuments st uploadId (AnalysisOutcome.provider (ProviderResult.err msg))).2
        = Response.analyzeOk uploadId st.nextId generateFallbackAnalysis ∧
    (analyzeDocuments st uploadId (AnalysisOutcome.provider (ProviderResult.err msg))).1.analyses st.nextId
        = some { id := st.nextId, uploadId := uploadId,
                 analysis := generateFallbackAnalysis, createdAt := st.now } ∧
    ∃ u2,
      (analyzeDocuments st uploadId (AnalysisOutcome.provider (ProviderResult.err msg))).1.uploads uploadId
          = some u2 ∧
      u2.status = Status.analyzed ∧ u2.analysisId = some st.nextId := by
  have hpost := analyzeDocuments_success_post st uploadId u
    (AnalysisOutcome.provider (ProviderResult.err msg)) generateFallbackAnalysis hu rfl
  refine ⟨?_, hpost.2.1, ⟨_, hpost.1, rfl, rfl⟩⟩
  rw [analyzeDocuments_success st uploadId u
    (AnalysisOutcome.provider (ProviderResult.err msg)) generateFallbackAnalysis hu rfl]

theorem c3_witness :
    (analyzeDocuments createdSt 0 (AnalysisOutcome.provider (ProviderResult.err "rate limit"))).2
        = Response.analyzeOk 0 createdSt.nextId generateFallbackAnalysis ∧
    (analyzeDocuments createdSt 0 (AnalysisOutcome.provider (ProviderResult.err "rate limit"))).1.analyses createdSt.nextId
        = some { id := createdSt.nextId, uploadId := 0,
                 analysis := generateFallbackAnalysis, createdAt := createdSt.now } ∧
    ∃ u2,
      (analyzeDocuments createdSt 0 (AnalysisOutcome.provider (ProviderResult.err "rate limit"))).1.uploads 0
          = some u2 ∧
      u2.status = Status.analyzed ∧ u2.analysisId = some createdSt.nextId :=
  c3_provider_error_uses_fallback createdSt 0 createdUpload "rate limit" (by decide)

/-- Claim C8: for every run_analysis call on an existing Upload in which an
unexpected exception is raised outside the provider-error path, the Upload
transitions to status `failed` with the failure message recorded in `error`,
a 500-class response is returned, and no Analysis is stored. -/
theorem c8_unexpected_error_fails_upload (st : ServerState) (uploadId : Nat) (u : Upload)
    (msg : String) (hu : st.uploads uploadId = some u) :
    (analyzeDocuments st uploadId (AnalysisOutcome.crash msg)).2
        = Response.serverError "Analysis failed" msg ∧
    (analyzeDocuments st uploadId (AnalysisOutcome.crash msg)).1.uploads uploadId
        = some { u with status := Status.failed, error := some msg } ∧
    (analyzeDocuments st uploadId (AnalysisOutcome.crash msg)).1.analyses = st.analyses := by
  unfold analyzeDocuments
  rw [hu]
  exact ⟨rfl, mset_lookup_same _ _ _, rfl⟩

theorem c8_witness :
    (analyzeDocuments createdSt 0 (AnalysisOutcome.crash "pdf parse error")).2
        = Response.serverError "Analysis failed" "pdf parse error" ∧
    (analyzeDocuments createdSt 0 (AnalysisOutcome.crash "pdf parse error")).1.uploads 0
        = some { createdUpload with status := Status.failed, error := some "pdf parse error" } ∧
    (analyzeDocuments createdSt 0 (AnalysisOutcome.crash "pdf parse error")).1.analyses
        = createdSt.analyses :=
  c8_unexpected_error_fails_upload createdSt 0 createdUpload "pdf parse error" (by decide)

/-- Claim C5: for every build_form call on an Upload with a stored Analysis
and a non-empty selection, the resulting disabilities are exactly the
Analysis's claim candidates whose condition is a member of the selection, in
original claim order with sequence numbers 1..n; selected names matching no
stored claim are silently omitted and never cause an error. -/
theorem c5_form_filters_selected_claims (st : ServerState) (uploadId : Nat) (u : Upload)
    (aid : Nat) (ar : AnalysisRecord) (sel : List String)
    (hu : st.uploads uploadId = some u) (ha : u.analysisId = some aid)
    (har : st.analyses aid = some ar) (hsel : sel ≠ []) :
    ∃ fd, (generateForm st uploadId sel).2 = Response.formOk fd ∧
      fd.disabilities.map Disability.condition
        = (ar.analysis.potentialClaims.filter
            (fun claim => sel.contains claim.condition)).map ClaimCandidate.condition ∧
      fd.disabilities.map Disability.sequence
        = List.range' 1 (ar.analysis.potentialClaims.filter
            (fun claim => sel.contains claim.condition)).length := by
  have hlen : ¬ sel.length = 0 := by simpa using hsel
  simp only [generateForm, if_neg hlen, hu, ha, har]
  refine ⟨_, rfl, ?_, ?_⟩
  · exact map_mapIdxAux (fun i claim => mkDisability (st.nextId + 1 + i) i claim)
      Disability.condition ClaimCandidate.condition (fun i a => rfl) 0
      (ar.analysis.potentialClaims.filter (fun claim => sel.contains claim.condition))
  · exact map_mapIdxAux_range (fun i claim => mkDisability (st.nextId + 1 + i) i claim)
      Disability.sequence (fun i a => rfl) 0
      (ar.analysis.potentialClaims.filter (fun claim => sel.contains claim.condition))

theorem c5_witness :
    ∃ fd, (generateForm analyzedSt 0 ["Tinnitus", "Nope"]).2 = Response.formOk fd ∧
      fd.disabilities.map Disability.condition
        = (sampleAnalysisRecord.analysis.potentialClaims.filter
            (fun claim => ["Tinnitus", "Nope"].contains claim.condition)).map ClaimCandidate.condition ∧
      fd.disabilities.map Disability.sequence
        = List.range' 1 (sampleAnalysisRecord.analysis.potentialClaims.filter
            (fun claim => ["Tinnitus", "Nope"].contains claim.condition)).length :=
  c5_form_filters_selected_claims analyzedSt 0 analyzedUpload 2 sampleAnalysisRecord
    ["Tinnitus", "Nope"] (by decide) (by decide) (by decide) (by decide)

/-- Claim C9: two sequential successful run_analysis calls on the same
uploadId create two Analysis records with distinct identifiers; the first
Analysis record is unchanged by the second call, and afterwards the Upload's
analysisId is the identifier of the most recent Analysis. -/
theorem c9_reanalysis_last_write_wins (st : ServerState) (uploadId : Nat) (u : Upload)
    (e1 e2 : AnalysisOutcome) (p1 p2 : Analysis)
    (hu : st.uploads uploadId = some u)
    (h1 : envPayload e1 = some p1) (h2 : envPayload e2 = some p2) :
    ∃ a1 a2 u1 u2 ar1,
      a1 ≠ a2 ∧
      (analyzeDocuments st uploadId e1).1.uploads uploadId = some u1 ∧
      u1.analysisId = some a1 ∧
      (analyzeDocuments st uploadId e1).1.analyses a1 = some ar1 ∧
      (analyzeDocuments (analyzeDocuments st uploadId e1).1 uploadId e2).1.analyses a1
          = some ar1 ∧
      (analyzeDocuments (analyzeDocuments st uploadId e1).1 uploadId e2).1.uploads uploadId
          = some u2 ∧
      u2.analysisId = some a2 ∧
      (analyzeDocuments (analyzeDocuments st uploadId e1).1 uploadId e2).1.analyses a2
          = some { id := a2, uploadId := uploadId, analysis := p2,
                   createdAt := (analyzeDocuments st uploadId e1).1.now } := by
  obtain ⟨hA1u, hA1a, hA1next, hA1now, hA1other⟩ :=
    analyzeDocuments_success_post st uploadId u e1 p1 hu h1
  obtain ⟨hA2u, hA2a, hA2next, hA2now, hA2other⟩ :=
    analyzeDocuments_success_post (analyzeDocuments st uploadId e1).1 uploadId _ e2 p2 hA1u h2
  have hne : st.nextId ≠ (analyzeDocuments st uploadId e1).1.nextId := by
    rw [hA1next]; omega
  exact ⟨st.nextId, (analyzeDocuments st uploadId e1).1.nextId, _, _, _,
    hne, hA1u, rfl, hA1a, (hA2other st.nextId hne).trans hA1a, hA2u, rfl, hA2a⟩

theorem c9_witness :
    ∃ a1 a2 u1 u2 ar1,
      a1 ≠ a2 ∧
      (analyzeDocuments createdSt 0 okEnv).1.uploads 0 = some u1 ∧
      u1.analysisId = some a1 ∧
      (analyzeDocuments createdSt 0 okEnv).1.analyses a1 = some ar1 ∧
      (analyzeDocuments (analyzeDocuments createdSt 0 okEnv).1 0 okEnv).1.analyses a1
          = some ar1 ∧
      (analyzeDocuments (analyzeDocuments createdSt 0 okEnv).1 0 okEnv).1.uploads 0
          = some u2 ∧
      u2.analysisId = some a2 ∧
      (analyzeDocuments (analyzeDocuments createdSt 0 okEnv).1 0 okEnv).1.analyses a2
          = some { id := a2, uploadId := 0, analysis := sampleAnalysis,
                   createdAt := (analyzeDocuments createdSt 0 okEnv).1.now } :=
  c9_reanalysis_last_write_wins createdSt 0 createdUpload okEnv okEnv
    sampleAnalysis sampleAnalysis (by decide) rfl rfl

/- One step preserves: every stored Upload with status `analyzed` has its
analysisId bound. -/
theorem step_preserves_analyzed_id (st : ServerState) (op : Op)
    (H : ∀ k v, st.uploads k = some v → v.status = Status.analyzed →
      v.analysisId.isSome = true) :
    ∀ k v, (step st op).uploads k = some v → v.status = Status.analyzed →
      v.analysisId.isSome = true := by
  intro k v hk hs
  cases op with
  | create files dt =>
      simp only [step, uploadDocuments] at hk
      split at hk
      · exact H k v hk hs
      · simp only [mset] at hk
        split at hk
        · obtain rfl := Option.some.inj hk
          simp at hs
        · exact H k v hk hs
  | beginAnalyze j =>
      simp only [step, beginAnalysis] at hk
      split at hk
      · exact H k v hk hs
      · simp only [mset] at hk
        split at hk
        · obtain rfl := Option.some.inj hk
          simp at hs
        · exact H k v hk hs
  | analyze j env =>
      simp only [step, analyzeDocuments] at hk
      split at hk
      · exact H k v hk hs
      · split at hk
        · simp only [mset] at hk
          split at hk
          · obtain rfl := Option.some.inj hk
            simp at hs
          · exact H k v hk hs
        · simp only [mset] at hk
          split at hk
          · obtain rfl := Option.some.inj hk
            rfl
          · exact H k v hk hs
  | fetch j =>
      simp only [step] at hk
      rw [getAnalysis_state] at hk
      exact H k v hk hs
  | form j sel =>
      simp only [step] at hk
      rw [generateForm_uploads] at hk
      exact H k v hk hs

theorem applyOps_analyzed_id (ops : List Op) (st : ServerState)
    (H : ∀ k v, st.uploads k = some v → v.status = Status.analyzed →
      v.analysisId.isSome = true) :
    ∀ k v, (applyOps st ops).uploads k = some v → v.status = Status.analyzed →
      v.analysisId.isSome = true := by
  induction ops generalizing st with
  | nil => exact H
  | cons op ops ih => exact ih (step st op) (step_preserves_analyzed_id st op H)

/-- Claim C1 (amended): in every reachable state, a stored Upload with
status `analyzed` has its analysisId set.  The converse direction of the
claimed invariant fails: after a begin_analysis or a crashing run_analysis
that follows an earlier successful run_analysis, analysisId stays set while
the status is `analyzing` or `failed` (see the counterexample). -/
theorem c1_analyzed_implies_analysis_bound (ops : List Op) (id : Nat) (u : Upload)
    (hu : (applyOps initState ops).uploads id = some u)
    (hs : u.status = Status.analyzed) : u.analysisId.isSome = true :=
  applyOps_analyzed_id ops initState (fun _ _ hk _ => Option.noConfusion hk) id u hu hs

theorem c1_witness : analyzedUpload.analysisId.isSome = true :=
  c1_analyzed_implies_analysis_bound analyzedOps 0 analyzedUpload (by decide) (by decide)

/- Refutation of claim C1 as stated: after create, a successful analyze and
a crashing analyze on the same upload, the stored Upload has analysisId set
while its status is `failed`, so the if-and-only-if invariant fails on a
reachable record. -/
theorem c1_counterexample :
    ¬ (∀ (ops : List Op) (id : Nat) (u : Upload),
        (applyOps initState ops).uploads id = some u →
        (u.analysisId.isSome = true ↔ u.status = Status.analyzed)) := by
  intro h
  exact absurd ((h c1Ops 0 c1Upload (by decide)).mp (by decide)) (by decide)

/- One step by an operation that does not start an analysis on `id`
preserves: any Upload stored at `id` is still fresh (status `uploaded`,
no analysisId). -/
theorem step_preserves_fresh (id : Nat) (st : ServerState) (op : Op)
    (hop : startsAnalysisOn op id = false)
    (H : ∀ u, st.uploads id = some u → u.status = Status.uploaded ∧ u.analysisId = none) :
    ∀ u, (step st op).uploads id = some u →
      u.status = Status.uploaded ∧ u.analysisId = none := by
  intro u hu
  cases op with
  | create files dt =>
      simp only [step, uploadDocuments] at hu
      split at hu
      · exact H u hu
      · simp only [mset] at hu
        split at hu
        · obtain rfl := Option.some.inj hu
          exact ⟨rfl, rfl⟩
        · exact H u hu
  | beginAnalyze j =>
      have hj : ¬ (id = j) := by
        simp only [startsAnalysisOn, beq_eq_false_iff_ne] at hop
        exact fun hEq => hop hEq.symm
      simp only [step, beginAnalysis] at hu
      split at hu
      · exact H u hu
      · simp only [mset, if_neg hj] at hu
        exact H u hu
  | analyze j env =>
      have hj : ¬ (id = j) := by
        simp only [startsAnalysisOn, beq_eq_false_iff_ne] at hop
        exact fun hEq => hop hEq.symm
      simp only [step, analyzeDocuments] at hu
      split at hu
      · exact H u hu
      · split at hu
        · simp only [mset, if_neg hj] at hu
          exact H u hu
        · simp only [mset, if_neg hj] at hu
          exact H u hu
  | fetch j =>
      simp only [step] at hu
      rw [getAnalysis_state] at hu
      exact H u hu
  | form j sel =>
      simp only [step] at hu
      rw [generateForm_uploads] at hu
      exact H u hu

theorem applyOps_fresh (id : Nat) (ops : List Op) (st : ServerState)
    (H : ∀ u, st.uploads id = some u → u.status = Status.uploaded ∧ u.analysisId = none)
    (hops : ∀ op ∈ ops, startsAnalysisOn op id = false) :
    ∀ u, (applyOps st ops).uploads id = some u →
      u.status = Status.uploaded ∧ u.analysisId = none := by
  induction ops generalizing st with
  | nil => exact H
  | cons op ops ih =>
      exact ih (step st op)
        (step_preserves_fresh id st op (hops op (List.mem_cons_self op ops)) H)
        (fun o ho => hops o (List.mem_cons_of_mem op ho))

/-- Claim C7: get_analysis answers NotFound when no Upload exists for the
id; when the Upload exists with analysisId unset it answers NotReady
exposing the current status; and for an Upload on which no analysis was
ever started the exposed status is `uploaded`.  The state is returned
untouched in every case. -/
theorem c7_get_analysis_errors (ops : List Op) (id : Nat) :
    ((applyOps initState ops).uploads id = none →
      getAnalysis (applyOps initState ops) id
        = (applyOps initState ops, Response.notFound "Upload not found")) ∧
    (∀ u, (applyOps initState ops).uploads id = some u → u.analysisId = none →
      getAnalysis (applyOps initState ops) id
        = (applyOps initState ops,
           Response.notReady "Analysis not yet performed for this upload" u.status)) ∧
    (∀ u, (applyOps initState ops).uploads id = some u →
      (∀ op ∈ ops, startsAnalysisOn op id = false) →
      getAnalysis (applyOps initState ops) id
        = (applyOps initState ops,
           Response.notReady "Analysis not yet performed for this upload" Status.uploaded)) := by
  refine ⟨?_, ?_, ?_⟩
  · intro h
    simp only [getAnalysis, h]
  · intro u hu ha
    simp only [getAnalysis, hu, ha]
  · intro u hu hops
    obtain ⟨hst, hid⟩ :=
      applyOps_fresh id ops initState (fun _ hv => Option.noConfusion hv) hops u hu
    simp only [getAnalysis, hu, hid, hst]

theorem c7_witness :
    getAnalysis (applyOps initState createdOps) 0
      = (applyOps initState createdOps,
         Response.notReady "Analysis not yet performed for this upload" Status.uploaded) :=
  (c7_get_analysis_errors createdOps 0).2.2 createdUpload (by decide) (by decide)

end VetFile
